import Mathlib

/-!
Shallow embedding of the Virtual-Memory-Manager backend core
(src/backend/src/vmm/{VMM,PageTable,Replacement}.cpp) in Lean 4.

Conventions of the embedding:
* C++ `int` is `Int`; `size_t` counters are `Nat` (they only increase and
  never approach 2^64 in the modelled scenarios).  The one place where a
  signed `int` is combined with a `size_t` by the usual arithmetic
  conversions, namely `int % config_.total_pages` in
  `VMM::requestAIPredictions`, is modelled explicitly by `modTotalPages`
  (conversion of the `int` to a 64-bit unsigned value, then `%`).
* `std::unordered_map<int, PageEntry>` is an association list with unique
  keys; `operator[]` (which default-constructs a missing entry) is
  `ptUpdate`.
* `std::vector<bool>` / `std::vector<int>` are Lean lists indexed with
  `List.getD`/`List.set`; every index used by the modelled code paths is in
  range, and reads that would be out of range in C++ (undefined behaviour)
  default to `false` / the given default.
* `double` confidences are modelled as `ℚ` (they are only ever assigned
  the literals 0.85 / 0.70 / 0.60 / 0.0 and compared, never computed with).
* `emitEvent` is modelled by returning the list of emitted events; the
  event strings are represented by a structured `Event` type with one
  constructor per `emitEvent` call site.
-/

namespace VMMModel

/-- Events emitted via `VMM::emitEvent`, one constructor per call site. -/
inductive Event where
  | aiPrefetched (page : Int)
  | accessEv (page : Int) (isWrite : Bool)
  | aiHit (page : Int)
  | faultEv (page : Int)
  | errorNoVictim
  | evictEv (page : Int) (frame : Int)
  | swapInEv (page : Int) (frame : Int)
  | swapOutEv (page : Int) (frame : Int)
  | aiPredicted (pages : List Int)
  | aiGenerated (count : Nat) (confidence : ℚ)
  | aiReceived (count : Nat)
  | aiPrefetchedSimple (page : Int)
  | simulationStarted
  | simulationStopped
deriving DecidableEq

/-- `PageEntry` from PageTable.h with its default member initialisers. -/
structure PageEntry where
  valid : Bool := false
  referenced : Bool := false
  modified : Bool := false
  frame_number : Int := -1
  access_count : Nat := 0
  last_access_time : Nat := 0
deriving DecidableEq

/-- The page table `std::unordered_map<int, PageEntry>` as an association
list with unique keys (insertion order at the tail). -/
def PTable : Type := List (Int × PageEntry)

instance : DecidableEq PTable := by
  unfold PTable
  infer_instance

/-- Lookup in the map (`pages_.find`). -/
def ptFind (pt : PTable) (p : Int) : Option PageEntry :=
  match pt with
  | [] => none
  | (q, e) :: rest => if q = p then some e else ptFind rest p

/-- `pages_[p]` followed by a field mutation: default-construct the entry
if absent, then apply `f`. -/
def ptUpdate (pt : PTable) (p : Int) (f : PageEntry → PageEntry) : PTable :=
  match pt with
  | [] => [(p, f {})]
  | (q, e) :: rest => if q = p then (q, f e) :: rest else (q, e) :: ptUpdate rest p f

/-- `PageTable::isPageValid`. -/
def isPageValid (pt : PTable) (p : Int) : Bool :=
  match ptFind pt p with
  | some e => e.valid
  | none => false

/-- `PageTable::getFrameNumber` (returns -1 for absent or invalid pages). -/
def getFrameNumber (pt : PTable) (p : Int) : Int :=
  match ptFind pt p with
  | some e => if e.valid then e.frame_number else -1
  | none => -1

/-- `PageTable::setPageValid` (no range check in the source). -/
def setPageValid (pt : PTable) (p : Int) (v : Bool) : PTable :=
  ptUpdate pt p (fun e => { e with valid := v })

/-- `PageTable::setPageModified`. -/
def setPageModified (pt : PTable) (p : Int) (m : Bool) : PTable :=
  ptUpdate pt p (fun e => { e with modified := m })

/-- `PageTable::setFrameNumber`. -/
def setFrameNumber (pt : PTable) (p : Int) (f : Int) : PTable :=
  ptUpdate pt p (fun e => { e with frame_number := f })

/-- `PageTable::recordPageAccess`. -/
def recordPageAccess (pt : PTable) (p : Int) (t : Nat) : PTable :=
  ptUpdate pt p (fun e =>
    { e with referenced := true, access_count := e.access_count + 1, last_access_time := t })

/-- `PageTable::getValidPages` (iteration order: insertion order). -/
def getValidPages (pt : PTable) : List Int :=
  (pt.filter (fun q => q.2.valid)).map (fun q => q.1)

/-- `ReplacementPolicy` enum. -/
inductive PolicyKind where
  | fifo
  | lru
  | clock
deriving DecidableEq

/-- Internal state of the active replacement algorithm.  The FIFO queue and
its shadow membership set `in_queue_` always contain exactly the same
frames (every push and pop in Replacement.cpp updates both), so one
duplicate-free list models both. -/
inductive PolicyState where
  | fifo (queue : List Int)
  | lru (last_access_times : List Nat) (current_time : Nat)
  | clock (reference_bits : List Bool) (clock_hand : Nat)
deriving DecidableEq

/-- `FIFOReplacement::selectVictimFrame`: drop stale (non-occupied) heads,
return the first occupied head without removing it from the queue. -/
def fifoSelectVictim (validity : List Bool) : List Int → Int × List Int
  | [] => (-1, [])
  | f :: rest =>
    if validity.getD f.toNat false then (f, f :: rest)
    else fifoSelectVictim validity rest

/-- `FIFOReplacement::recordFrameAccess`: enqueue only if not present. -/
def fifoRecordAccess (queue : List Int) (f : Int) : List Int :=
  if queue.contains f then queue else queue ++ [f]

/-- ULLONG_MAX, the initial value of `oldest_time` in
`LRUReplacement::selectVictimFrame`. -/
def ullongMax : Nat := 2 ^ 64 - 1

/-- `LRUReplacement::selectVictimFrame`: scan all frames, pick the occupied
one with the strictly smallest tick (ties to the lowest index). -/
def lruSelectVictim (validity : List Bool) (times : List Nat) : Int :=
  ((List.range validity.length).foldl
    (fun acc i =>
      if validity.getD i false ∧ times.getD i 0 < acc.2 then (Int.ofNat i, times.getD i 0)
      else acc)
    (-1, ullongMax)).1

/-- `LRUReplacement::recordFrameAccess`. -/
def lruRecordAccess (times : List Nat) (t : Nat) (f : Int) :
    List Nat × Nat :=
  if 0 ≤ f ∧ f.toNat < times.length then (times.set f.toNat t, t + 1)
  else (times, t)

/-- First do-while sweep of `CLOCKReplacement::selectVictimFrame`: look for
an occupied frame with a clear reference bit; fuel is one full rotation. -/
def clockPass1 (validity bits : List Bool) : Nat → Nat → Option Nat
  | _, 0 => none
  | hand, k + 1 =>
    if validity.getD hand false ∧ ¬(bits.getD hand false) then some hand
    else clockPass1 validity bits ((hand + 1) % validity.length) k

/-- Second do-while sweep: clear reference bits of occupied frames while
searching; fuel is one full rotation. -/
def clockPass2 (validity : List Bool) : List Bool → Nat → Nat → Option Nat × List Bool
  | bits, _, 0 => (none, bits)
  | bits, hand, k + 1 =>
    if validity.getD hand false then
      if ¬(bits.getD hand false) then (some hand, bits)
      else clockPass2 validity (bits.set hand false) ((hand + 1) % validity.length) k
    else clockPass2 validity bits ((hand + 1) % validity.length) k

/-- `CLOCKReplacement::selectVictimFrame`.  Each C++ do-while loop executes
exactly `validity.length` body iterations before the hand returns to
`start_hand`, so each pass gets that much fuel; after a failed pass the
hand is back at its starting position. -/
def clockSelectVictim (validity bits : List Bool) (hand : Nat) :
    Int × List Bool × Nat :=
  let n := validity.length
  match clockPass1 validity bits hand n with
  | some v => (Int.ofNat v, bits, (v + 1) % n)
  | none =>
    match clockPass2 validity bits hand n with
    | (some v, bits') => (Int.ofNat v, bits', (v + 1) % n)
    | (none, bits') => (-1, bits', hand)

/-- `CLOCKReplacement::recordFrameAccess`. -/
def clockRecordAccess (bits : List Bool) (f : Int) : List Bool :=
  if 0 ≤ f ∧ f.toNat < bits.length then bits.set f.toNat true else bits

/-- `ReplacementManager`: the active algorithm plus the stored frame count. -/
structure Manager where
  num_frames : Nat
  policy : PolicyState
deriving DecidableEq

/-- `ReplacementManager::setPolicy`: build a fresh algorithm state. -/
def freshPolicy (kind : PolicyKind) (n : Nat) : PolicyState :=
  match kind with
  | .fifo => .fifo []
  | .lru => .lru (List.replicate n 0) 0
  | .clock => .clock (List.replicate n false) 0

/-- `ReplacementManager` constructor. -/
def Manager.init (kind : PolicyKind) (n : Nat) : Manager :=
  { num_frames := n, policy := freshPolicy kind n }

/-- `ReplacementManager::selectVictimFrame` (the `page_table` argument is
ignored by all three algorithms). -/
def Manager.selectVictim (m : Manager) (validity : List Bool) (_pt : PTable) :
    Int × Manager :=
  match m.policy with
  | .fifo queue =>
    let (v, q') := fifoSelectVictim validity queue
    (v, { m with policy := .fifo q' })
  | .lru times _ => (lruSelectVictim validity times, m)
  | .clock bits hand =>
    let (v, bits', hand') := clockSelectVictim validity bits hand
    (v, { m with policy := .clock bits' hand' })

/-- `ReplacementManager::recordFrameAccess`. -/
def Manager.recordAccess (m : Manager) (f : Int) : Manager :=
  match m.policy with
  | .fifo queue => { m with policy := .fifo (fifoRecordAccess queue f) }
  | .lru times t =>
    let (times', t') := lruRecordAccess times t f
    { m with policy := .lru times' t' }
  | .clock bits hand => { m with policy := .clock (clockRecordAccess bits f) hand }

/-- `VMMConfig` (the `ai_predictor_url` string is transport-only and
carried nowhere in the core logic, so it is omitted). -/
structure Config where
  total_frames : Nat := 256
  page_size : Nat := 4096
  total_pages : Nat := 1024
  replacement_policy : PolicyKind := .clock
  enable_ai_predictions : Bool := false
deriving DecidableEq

/-- `VMMMetrics`. -/
structure Metrics where
  total_accesses : Nat := 0
  page_faults : Nat := 0
  swap_ins : Nat := 0
  swap_outs : Nat := 0
  ai_predictions : Nat := 0
  ai_hits : Nat := 0
deriving DecidableEq

/-- The whole `VMM` object state. -/
structure VMM where
  config : Config
  page_table : PTable
  manager : Manager
  metrics : Metrics
  frame_validity : List Bool
  frame_to_page : List Int
  frame_modified : List Bool
  recent_accesses : List Int
  recent_predictions : List Int
  ai_predictions_made : Nat
  ai_prediction_confidence : ℚ
  simulation_running : Bool
deriving DecidableEq

/-- The `VMM` constructor. -/
def VMM.init (cfg : Config) : VMM where
  config := cfg
  page_table := []
  manager := Manager.init cfg.replacement_policy cfg.total_frames
  metrics := {}
  frame_validity := List.replicate cfg.total_frames false
  frame_to_page := List.replicate cfg.total_frames (-1)
  frame_modified := List.replicate cfg.total_frames false
  recent_accesses := []
  recent_predictions := []
  ai_predictions_made := 0
  ai_prediction_confidence := 0
  simulation_running := false

/-- `VMM::startSimulation`. -/
def startSimulation (s : VMM) : VMM × List Event :=
  ({ s with simulation_running := true }, [.simulationStarted])

/-- `VMM::stopSimulation`. -/
def stopSimulation (s : VMM) : VMM × List Event :=
  ({ s with simulation_running := false }, [.simulationStopped])

/-- `std::vector::resize(n, v)`: keep the first `n` elements, append copies
of `v` if growing.  Existing elements are NOT reset. -/
def cppResize {α : Type} (l : List α) (n : Nat) (v : α) : List α :=
  if n ≤ l.length then l.take n else l ++ List.replicate (n - l.length) v

/-- `VMM::setConfig`: new page table and replacement manager, `resize` of
the three frame vectors, metrics untouched. -/
def setConfig (cfg : Config) (s : VMM) : VMM :=
  { s with
    config := cfg
    page_table := []
    manager := Manager.init cfg.replacement_policy cfg.total_frames
    frame_validity := cppResize s.frame_validity cfg.total_frames false
    frame_to_page := cppResize s.frame_to_page cfg.total_frames (-1)
    frame_modified := cppResize s.frame_modified cfg.total_frames false }

/-- `VMM::findFreeFrame`, written with an explicit index accumulator. -/
def findFreeFrameAux : List Bool → Nat → Int
  | [], _ => -1
  | b :: rest, i => if ¬b then Int.ofNat i else findFreeFrameAux rest (i + 1)

/-- `VMM::findFreeFrame`: lowest-indexed unoccupied frame, or -1. -/
def findFreeFrame (validity : List Bool) : Int :=
  findFreeFrameAux validity 0

/-- `VMM::allocateFrame`: occupy the free frame and clear its dirty bit. -/
def allocateFrame (s : VMM) : Int × VMM :=
  let free := findFreeFrame s.frame_validity
  if free = -1 then (-1, s)
  else
    (free,
     { s with
       frame_validity := s.frame_validity.set free.toNat true
       frame_modified := s.frame_modified.set free.toNat false })

/-- `VMM::swapIn`: pure accounting (increment `swap_ins`, emit the event). -/
def swapIn (page frame : Int) (s : VMM) : VMM × List Event :=
  ({ s with metrics := { s.metrics with swap_ins := s.metrics.swap_ins + 1 } },
   [.swapInEv page frame])

/-- `VMM::swapOut`: pure accounting (increment `swap_outs`, emit the event). -/
def swapOut (page frame : Int) (s : VMM) : VMM × List Event :=
  ({ s with metrics := { s.metrics with swap_outs := s.metrics.swap_outs + 1 } },
   [.swapOutEv page frame])

/-- `VMM::updateRecentAccesses` (window bound `MAX_RECENT_ACCESSES = 100`). -/
def updateRecentAccesses (recent : List Int) (page : Int) : List Int :=
  let r := recent ++ [page]
  if r.length > 100 then r.drop 1 else r

/-- The mixed `int % size_t` in `requestAIPredictions`: the `int` operand
is converted to 64-bit unsigned, the remainder is taken there, and the
(small) result is stored back into an `int`. -/
def modTotalPages (a : Int) (pages : Nat) : Int :=
  Int.ofNat ((a % (2 ^ 64 : Int)).toNat % pages)

/-- The prediction patterns of `VMM::requestAIPredictions`, computed from
the recent-access window.  Returns the prediction list and the confidence
assigned to `ai_prediction_confidence_` (`none` when the `size >= 3`
branch is not taken and the confidence is left unchanged).  All `int`
arithmetic uses C++ truncated division/remainder (`Int.tdiv`/`Int.tmod`). -/
def predictFromWindow (recent : List Int) (pages : Nat) : List Int × Option ℚ :=
  if recent.length ≥ 3 then
    let last := recent.getD (recent.length - 1) 0
    let second := recent.getD (recent.length - 2) 0
    let third := recent.getD (recent.length - 3) 0
    let pc : List Int × ℚ :=
      if last = second + 1 ∧ second = third + 1 then
        ([modTotalPages (last + 1) pages, modTotalPages (last + 2) pages], 85 / 100)
      else if last - second = second - third then
        let stride := last - second
        ([modTotalPages (last + stride) pages, modTotalPages (last + 2 * stride) pages],
         70 / 100)
      else
        let base := (Int.tdiv last 10) * 10
        ([modTotalPages (base + (Int.tmod (Int.tmod last 10 + 1) 10)) pages,
          modTotalPages (base + (Int.tmod (Int.tmod last 10 + 2) 10)) pages],
         60 / 100)
    let preds := if pc.1.length < 3 then pc.1 ++ [modTotalPages (last + 3) pages] else pc.1
    (preds, some pc.2)
  else ([], none)

/-- `VMM::requestAIPredictions`: compute the pattern predictions, then (for
a non-empty result) bump `ai_predictions`, extend the bounded
recent-predictions list and emit the two AI events. -/
def requestAIPredictions (s : VMM) : List Int × VMM × List Event :=
  if ¬s.config.enable_ai_predictions ∨ s.recent_accesses.isEmpty then ([], s, [])
  else
    let pc := predictFromWindow s.recent_accesses s.config.total_pages
    let s1 :=
      match pc.2 with
      | some c => { s with ai_prediction_confidence := c }
      | none => s
    if pc.1.isEmpty then (pc.1, s1, [])
    else
      let rp := s1.recent_predictions ++ pc.1
      let rp := if rp.length > 50 then rp.drop (rp.length - 50) else rp
      let s2 :=
        { s1 with
          ai_predictions_made := s1.ai_predictions_made + 1
          metrics := { s1.metrics with ai_predictions := s1.metrics.ai_predictions + 1 }
          recent_predictions := rp }
      (pc.1, s2,
       [.aiPredicted pc.1, .aiGenerated pc.1.length s2.ai_prediction_confidence])

/-- The prefetch loop body of `VMM::accessPage` over the prediction list:
for each predicted page distinct from the accessed one and non-resident,
if a free frame exists, call `swapIn` and emit the AI-prefetch event.
Note that the loop never marks the frame occupied nor the page valid. -/
def stepPrefetchList (page : Int) : List Int → VMM → VMM × List Event
  | [], s => (s, [])
  | q :: rest, s =>
    let se : VMM × List Event :=
      if q ≠ page ∧ ¬isPageValid s.page_table q then
        let free := findFreeFrame s.frame_validity
        if free ≠ -1 then
          let r := swapIn q free s
          (r.1, r.2 ++ [.aiPrefetched q])
        else (s, [])
      else (s, [])
    let r2 := stepPrefetchList page rest se.1
    (r2.1, se.2 ++ r2.2)

/-- The eviction block of `VMM::handlePageFault` (executed only when the
victim frame names a page): invalidate the victim page, swap out when the
frame is dirty, emit the EVICT event. -/
def evictVictim (frame : Nat) (s : VMM) : VMM × List Event :=
  let victim := s.frame_to_page.getD frame (-1)
  if victim ≠ -1 then
    let s1 := { s with page_table := setPageValid s.page_table victim false }
    let r : VMM × List Event :=
      if s1.frame_modified.getD frame false then swapOut victim (Int.ofNat frame) s1
      else (s1, [])
    (r.1, r.2 ++ [.evictEv victim (Int.ofNat frame)])
  else (s, [])

/-- The install tail of `VMM::handlePageFault`: swap in, mark the page
valid and bound to the frame, record the access, set the dirty bits on a
write, update `frame_to_page_` and tell the policy. -/
def installPage (page : Int) (is_write : Bool) (frame : Nat) (s : VMM) :
    VMM × List Event :=
  let r := swapIn page (Int.ofNat frame) s
  let s1 := r.1
  let pt := setPageValid s1.page_table page true
  let pt := setFrameNumber pt page (Int.ofNat frame)
  let pt := recordPageAccess pt page s1.metrics.total_accesses
  let pt := if is_write then setPageModified pt page true else pt
  let fm := if is_write then s1.frame_modified.set frame true else s1.frame_modified
  let s2 :=
    { s1 with
      page_table := pt
      frame_modified := fm
      frame_to_page := s1.frame_to_page.set frame page
      manager := Manager.recordAccess s1.manager (Int.ofNat frame) }
  (s2, r.2)

/-- The `page_faults` increment at the head of `VMM::handlePageFault`. -/
def bumpFaults (s : VMM) : VMM :=
  { s with metrics := { s.metrics with page_faults := s.metrics.page_faults + 1 } }

/-- The body of `VMM::handlePageFault` after the `page_faults` increment:
try a free frame, otherwise select and evict a victim (or bail out with
the no-victim ERROR), then install. -/
def faultBody (page : Int) (is_write : Bool) (s0 : VMM) : VMM × List Event :=
  let al := allocateFrame s0
  if al.1 = -1 then
    let sv := Manager.selectVictim s0.manager s0.frame_validity s0.page_table
    let s2 := { s0 with manager := sv.2 }
    if sv.1 = -1 then (s2, [.faultEv page, .errorNoVictim])
    else
      let re := evictVictim sv.1.toNat s2
      let ri := installPage page is_write sv.1.toNat re.1
      (ri.1, .faultEv page :: (re.2 ++ ri.2))
  else
    let ri := installPage page is_write al.1.toNat al.2
    (ri.1, .faultEv page :: ri.2)

/-- `VMM::handlePageFault`. -/
def handlePageFault (page : Int) (is_write : Bool) (s : VMM) : VMM × List Event :=
  faultBody page is_write (bumpFaults s)

/-- The hit branch of `VMM::accessPage`: record the access, inform the
policy, attribute an AI hit when the page is among the recent predictions
(erasing its first occurrence), set the dirty bits on a write, emit the
ACCESS event. -/
def stepHit (page : Int) (is_write : Bool) (s : VMM) : VMM × List Event :=
  let frame := getFrameNumber s.page_table page
  let s1 :=
    { s with
      page_table := recordPageAccess s.page_table page s.metrics.total_accesses
      manager := Manager.recordAccess s.manager frame }
  let r2 : VMM × List Event :=
    if s1.config.enable_ai_predictions ∧ ¬s1.recent_predictions.isEmpty then
      if s1.recent_predictions.contains page then
        ({ s1 with
           metrics := { s1.metrics with ai_hits := s1.metrics.ai_hits + 1 }
           recent_predictions := s1.recent_predictions.erase page },
         [.aiHit page])
      else (s1, [])
    else (s1, [])
  let s2 := r2.1
  let s3 :=
    if is_write then
      { s2 with
        page_table := setPageModified s2.page_table page true
        frame_modified := s2.frame_modified.set frame.toNat true }
    else s2
  (s3, r2.2 ++ [.accessEv page is_write])

/-- The prefetch block of `VMM::accessPage` (lines 33-48): when AI
predictions are enabled and the window holds at least 3 entries, request
predictions and try to prefetch each of them. -/
def stepPrefetchPhase (page : Int) (s1 : VMM) : VMM × List Event :=
  if s1.config.enable_ai_predictions ∧ s1.recent_accesses.length ≥ 3 then
    let rq := requestAIPredictions s1
    if ¬rq.1.isEmpty then
      let rf := stepPrefetchList page rq.1 rq.2.1
      (rf.1, rq.2.2 ++ rf.2)
    else (rq.2.1, rq.2.2)
  else (s1, [])

/-- `VMM::accessPage`: returns the success flag, the new state and the
emitted events. -/
def accessPage (page : Int) (is_write : Bool) (s : VMM) :
    Bool × VMM × List Event :=
  if ¬s.simulation_running then (false, s, [])
  else
    let s1 :=
      { s with
        metrics := { s.metrics with total_accesses := s.metrics.total_accesses + 1 }
        recent_accesses := updateRecentAccesses s.recent_accesses page }
    let rp := stepPrefetchPhase page s1
    let s2 := rp.1
    if isPageValid s2.page_table page then
      let rh := stepHit page is_write s2
      (true, rh.1, rp.2 ++ rh.2)
    else
      let rf := handlePageFault page is_write s2
      (true, rf.1, rp.2 ++ rf.2)

/-- `VMM::setAIPredictions`: bump `ai_predictions` once, then for each
non-resident predicted page with a free frame, swap in AND increment
`ai_hits` (the prefetch-install conflation of the source). -/
def setAIPredictions (pages : List Int) (s : VMM) : VMM × List Event :=
  let s0 := { s with metrics := { s.metrics with ai_predictions := s.metrics.ai_predictions + 1 } }
  let r :=
    pages.foldl
      (fun (acc : VMM × List Event) page =>
        if ¬isPageValid acc.1.page_table page then
          let free := findFreeFrame acc.1.frame_validity
          if free ≠ -1 then
            let ri := swapIn page free acc.1
            let s2 :=
              { ri.1 with
                metrics := { ri.1.metrics with ai_hits := ri.1.metrics.ai_hits + 1 } }
            (s2, acc.2 ++ ri.2 ++ [.aiPrefetchedSimple page])
          else acc
        else acc)
      (s0, [Event.aiReceived pages.length])
  r

/-- `VMM::getPageFaultRate` (the zero-guard ternary), with the `double`
ratio represented in `ℚ`. -/
def getPageFaultRate (m : Metrics) : ℚ :=
  if m.total_accesses > 0 then (m.page_faults : ℚ) / (m.total_accesses : ℚ) else 0

/-- `VMM::getAIHitRate` (the zero-guard ternary), with the `double` ratio
represented in `ℚ`. -/
def getAIHitRate (m : Metrics) : ℚ :=
  if m.ai_predictions > 0 then (m.ai_hits : ℚ) / (m.ai_predictions : ℚ) else 0

/-- `VMM::getUsedFrameCount`: the number of occupied frames. -/
def countTrue : List Bool → Nat
  | [] => 0
  | b :: rest => (if b then 1 else 0) + countTrue rest

/-- Used-frame count of a VMM state. -/
def usedFrames (s : VMM) : Nat := countTrue s.frame_validity

/-- Driving a list of `(page, is_write)` operations through `accessPage`. -/
def runAccesses (ops : List (Int × Bool)) (s : VMM) : VMM :=
  ops.foldl (fun s op => (accessPage op.1 op.2 s).2.1) s

/-! ### Concrete scenario states used by the claims -/

/-- F=3, P=8, FIFO, predictions off: the Belady scenario configuration. -/
def cfgBelady : Config :=
  { total_frames := 3, total_pages := 8, replacement_policy := .fifo,
    enable_ai_predictions := false }

/-- The classic Belady access sequence, all reads. -/
def beladySeq : List (Int × Bool) :=
  [1, 2, 3, 4, 1, 2, 5, 1, 2, 3, 4, 5].map (fun p => ((p : Int), false))

/-- The state after servicing the Belady sequence from a fresh start. -/
def beladyFinal : VMM :=
  runAccesses beladySeq (startSimulation (VMM.init cfgBelady)).1

/-- F=3, P=8, FIFO, predictions ON: the prefetch scenario configuration. -/
def cfgPrefetch : Config :=
  { total_frames := 3, total_pages := 8, replacement_policy := .fifo,
    enable_ai_predictions := true }

/-- State after reads of pages 0, 1, 2 with predictions enabled: on the
third access the window is [0,1,2], the stride-1 pattern fires and pages
3, 4, 5 are "prefetched". -/
def prefetchFinal : VMM :=
  runAccesses [((0 : Int), false), (1, false), (2, false)]
    (startSimulation (VMM.init cfgPrefetch)).1

/-- State after only the first two of those reads: two of the three frames
are used, so a free frame exists when the third access prefetches. -/
def prefetchMid : VMM :=
  runAccesses [((0 : Int), false), (1, false)]
    (startSimulation (VMM.init cfgPrefetch)).1

/-- F=2, P=8 configuration for the `setAIPredictions` scenario. -/
def cfgTwoFrames : Config :=
  { total_frames := 2, total_pages := 8, replacement_policy := .fifo,
    enable_ai_predictions := false }

/-- State after `setAIPredictions({0,1})` on a fresh VMM with two frames. -/
def setPredFinal : VMM :=
  (setAIPredictions [0, 1] (VMM.init cfgTwoFrames)).1

/-- F=1, P=2, FIFO configuration for the swap-delta counterexample. -/
def cfgOneFrame : Config :=
  { total_frames := 1, total_pages := 2, replacement_policy := .fifo,
    enable_ai_predictions := false }

/-- State after reads of pages 0 then 1 with a single frame: the second
access evicts a clean page, so `swap_ins = 2`, `swap_outs = 0`, yet only
one frame became used. -/
def oneFrameFinal : VMM :=
  runAccesses [((0 : Int), false), (1, false)]
    (startSimulation (VMM.init cfgOneFrame)).1

/-- F=1, P=2, CLOCK configuration. -/
def cfgClockOne : Config :=
  { total_frames := 1, total_pages := 2, replacement_policy := .clock,
    enable_ai_predictions := false }

/-- State after one read of page 0 under CLOCK with a single frame: the
frame is occupied and its reference bit is set. -/
def clockWarm : VMM :=
  runAccesses [((0 : Int), false)] (startSimulation (VMM.init cfgClockOne)).1

/-- F=2, P=4 configuration for the `setConfig` scenario. -/
def cfgReset : Config :=
  { total_frames := 2, total_pages := 4, replacement_policy := .fifo,
    enable_ai_predictions := false }

/-- State after one write to page 0 and then `setConfig` with the same
configuration: the vectors are `resize`d, not rebuilt. -/
def resetFinal : VMM :=
  setConfig cfgReset
    (runAccesses [((0 : Int), true)] (startSimulation (VMM.init cfgReset)).1)

/-- Fresh started VMM with F=2, P=8 used for the out-of-range claim. -/
def freshOutOfRange : VMM :=
  (startSimulation (VMM.init cfgTwoFrames)).1

/-- P=1024, predictions on: state whose recent-access window is [4,5,6],
used to exercise the rule-based predictor. -/
def windowState : VMM :=
  { VMM.init
      { total_frames := 4, total_pages := 1024, replacement_policy := .clock,
        enable_ai_predictions := true } with
    recent_accesses := [4, 5, 6] }

/-- The invariant behind the corrected swap-delta claim:
`swap_outs + used_frames ≤ swap_ins`. -/
def SwapInv (s : VMM) : Prop :=
  s.metrics.swap_outs + usedFrames s ≤ s.metrics.swap_ins

/-! ### Helper lemmas for the swap-delta invariant -/

lemma countTrue_replicate_false (n : Nat) : countTrue (List.replicate n false) = 0 := by
  induction n with
  | zero => rfl
  | succ n ih => simp [List.replicate, countTrue, ih]

lemma countTrue_set_true (l : List Bool) (k : Nat) (h : l.getD k true = false) :
    countTrue (l.set k true) = countTrue l + 1 := by
  induction l generalizing k with
  | nil => simp [List.getD] at h
  | cons b rest ih =>
    cases k with
    | zero =>
      simp only [List.getD_cons_zero] at h
      subst h
      simp [countTrue]
      omega
    | succ k =>
      simp only [List.getD_cons_succ] at h
      simp only [List.set_cons_succ, countTrue, ih k h]
      omega

lemma findFreeFrameAux_spec (l : List Bool) (i : Nat) :
    findFreeFrameAux l i = -1 ∨
      ∃ j, findFreeFrameAux l i = Int.ofNat j ∧ i ≤ j ∧ l.getD (j - i) true = false := by
  induction l generalizing i with
  | nil => left; rfl
  | cons b rest ih =>
    by_cases hb : b
    · rcases ih (i + 1) with h | ⟨j, hj, hij, hg⟩
      · left; simpa [findFreeFrameAux, hb] using h
      · right
        refine ⟨j, ?_, by omega, ?_⟩
        · simpa [findFreeFrameAux, hb] using hj
        · have : j - i = (j - (i + 1)) + 1 := by omega
          rw [this, List.getD_cons_succ]
          exact hg
    · right
      refine ⟨i, ?_, le_refl i, ?_⟩
      · simp [findFreeFrameAux, hb]
      · simp only [Nat.sub_self, List.getD_cons_zero]
        exact Bool.not_eq_true b ▸ (by simpa using hb)

lemma allocateFrame_spec (s : VMM) :
    allocateFrame s = (-1, s) ∨
      (usedFrames (allocateFrame s).2 = usedFrames s + 1 ∧
        (allocateFrame s).2.metrics = s.metrics ∧ (allocateFrame s).1 ≠ -1) := by
  rcases findFreeFrameAux_spec s.frame_validity 0 with h | ⟨j, hj, _, hg⟩
  · left
    simp [allocateFrame, findFreeFrame, h]
  · right
    have hne : (Int.ofNat j : Int) ≠ -1 := by
      intro hcon
      have h0 : (0 : Int) ≤ Int.ofNat j := Int.ofNat_nonneg j
      rw [hcon] at h0
      norm_num at h0
    constructor
    · simp only [allocateFrame, findFreeFrame, hj, if_neg hne, usedFrames]
      simpa using countTrue_set_true s.frame_validity j (by simpa using hg)
    · constructor
      · simp [allocateFrame, findFreeFrame, hj, if_neg hne]
      · simp [allocateFrame, findFreeFrame, hj, if_neg hne]

lemma swapInv_swapIn (q f : Int) (s : VMM) (h : SwapInv s) : SwapInv (swapIn q f s).1 := by
  unfold SwapInv usedFrames swapIn at *
  simp only []
  omega

lemma swapInv_stepPrefetchList (ps : List Int) (page : Int) (s : VMM) (h : SwapInv s) :
    SwapInv (stepPrefetchList page ps s).1 := by
  induction ps generalizing s with
  | nil => simpa [stepPrefetchList] using h
  | cons q rest ih =>
    simp only [stepPrefetchList]
    split
    · split
      · exact ih _ (swapInv_swapIn q (findFreeFrame s.frame_validity) s h)
      · exact ih _ h
    · exact ih _ h

lemma swapInv_requestAIPredictions (s : VMM) (h : SwapInv s) :
    SwapInv (requestAIPredictions s).2.1 := by
  unfold SwapInv usedFrames at *
  simp only [requestAIPredictions]
  repeat' split
  all_goals simpa using h

lemma swapInv_stepPrefetchPhase (page : Int) (s : VMM) (h : SwapInv s) :
    SwapInv (stepPrefetchPhase page s).1 := by
  simp only [stepPrefetchPhase]
  split
  · split
    · exact swapInv_stepPrefetchList _ page _ (swapInv_requestAIPredictions s h)
    · exact swapInv_requestAIPredictions s h
  · exact h

lemma swapInv_stepHit (page : Int) (w : Bool) (s : VMM) (h : SwapInv s) :
    SwapInv (stepHit page w s).1 := by
  unfold SwapInv usedFrames at *
  simp only [stepHit]
  repeat' split
  all_goals simpa using h

lemma installPage_swap_ins (p : Int) (w : Bool) (f : Nat) (s : VMM) :
    (installPage p w f s).1.metrics.swap_ins = s.metrics.swap_ins + 1 := rfl

lemma installPage_swap_outs (p : Int) (w : Bool) (f : Nat) (s : VMM) :
    (installPage p w f s).1.metrics.swap_outs = s.metrics.swap_outs := rfl

lemma installPage_frame_validity (p : Int) (w : Bool) (f : Nat) (s : VMM) :
    (installPage p w f s).1.frame_validity = s.frame_validity := rfl

lemma evictVictim_fields (f : Nat) (s : VMM) :
    (evictVictim f s).1.metrics.swap_ins = s.metrics.swap_ins ∧
      (evictVictim f s).1.metrics.swap_outs ≤ s.metrics.swap_outs + 1 ∧
      (evictVictim f s).1.frame_validity = s.frame_validity := by
  simp only [evictVictim, swapOut]
  split
  · split
    · exact ⟨rfl, Nat.le_refl _, rfl⟩
    · exact ⟨rfl, Nat.le_succ _, rfl⟩
  · exact ⟨rfl, Nat.le_succ _, rfl⟩

lemma swapInv_faultBody (page : Int) (w : Bool) (s0 : VMM) (h0 : SwapInv s0) :
    SwapInv (faultBody page w s0).1 := by
  simp only [faultBody]
  rcases allocateFrame_spec s0 with ha | ⟨hu, hm, hne⟩
  · have h1 : (allocateFrame s0).1 = -1 := by rw [ha]
    rw [if_pos h1]
    split
    · unfold SwapInv usedFrames at *
      simpa using h0
    · rcases evictVictim_fields
        (Manager.selectVictim s0.manager s0.frame_validity s0.page_table).1.toNat
        { s0 with manager := (Manager.selectVictim s0.manager s0.frame_validity s0.page_table).2 }
        with ⟨he1, he2, he3⟩
      unfold SwapInv usedFrames at h0 ⊢
      rw [installPage_swap_ins, installPage_swap_outs, installPage_frame_validity, he1, he3]
      dsimp only at he2 ⊢
      omega
  · rw [if_neg hne]
    unfold SwapInv usedFrames at h0 ⊢
    rw [installPage_swap_ins, installPage_swap_outs, installPage_frame_validity]
    unfold usedFrames at hu
    rw [hu, hm]
    omega

lemma swapInv_handlePageFault (page : Int) (w : Bool) (s : VMM) (h : SwapInv s) :
    SwapInv (handlePageFault page w s).1 := by
  apply swapInv_faultBody
  unfold SwapInv usedFrames bumpFaults at *
  simpa using h

lemma swapInv_accessPage (page : Int) (w : Bool) (s : VMM) (h : SwapInv s) :
    SwapInv (accessPage page w s).2.1 := by
  simp only [accessPage]
  split
  · exact h
  · have h1 : SwapInv
        { s with
          metrics := { s.metrics with total_accesses := s.metrics.total_accesses + 1 }
          recent_accesses := updateRecentAccesses s.recent_accesses page } := by
      unfold SwapInv usedFrames at *
      simpa using h
    have h2 := swapInv_stepPrefetchPhase page _ h1
    split
    · exact swapInv_stepHit page w _ h2
    · exact swapInv_handlePageFault page w _ h2

lemma swapInv_runAccesses (ops : List (Int × Bool)) (s : VMM) (h : SwapInv s) :
    SwapInv (runAccesses ops s) := by
  induction ops generalizing s with
  | nil => simpa [runAccesses] using h
  | cons op rest ih =>
    simp only [runAccesses, List.foldl_cons]
    exact ih _ (swapInv_accessPage op.1 op.2 s h)

/-! ### Claim theorems -/

/-- Claim C1: the prefetch step of `accessPage` does NOT install the
predicted pages.  On reads of 0, 1, 2 (F=3, P=8, predictions on), the
third access predicts pages 3, 4, 5 while frame 2 is still free
(`usedFrames prefetchMid = 2`); the code increments `swap_ins` once per
predicted page (3 faults + 3 prefetches = 6) yet none of the pages 3, 4, 5
becomes valid, and only the 3 demand-faulted pages occupy frames. -/
theorem accessPage_prefetch_counts_only :
    usedFrames prefetchMid = 2 ∧
      prefetchFinal.metrics.page_faults = 3 ∧
      prefetchFinal.metrics.swap_ins = 6 ∧
      prefetchFinal.recent_predictions = [3, 4, 5] ∧
      isPageValid prefetchFinal.page_table 3 = false ∧
      isPageValid prefetchFinal.page_table 4 = false ∧
      isPageValid prefetchFinal.page_table 5 = false ∧
      usedFrames prefetchFinal = 3 := by
  decide

/-- Claim C2: `setAIPredictions` increments `ai_hits` on every prefetch
install, so after one call with two installable pages on a fresh VMM,
`ai_hits = 2 > 1 = ai_predictions`, violating `ai_hits ≤ ai_predictions`. -/
theorem setAIPredictions_ai_hits_exceed_predictions :
    setPredFinal.metrics.ai_hits = 2 ∧
      setPredFinal.metrics.ai_predictions = 1 ∧
      ¬setPredFinal.metrics.ai_hits ≤ setPredFinal.metrics.ai_predictions := by
  decide

/-- Claim C3 (counterexample): with one frame and the read sequence 0, 1,
the second fault evicts a clean page, so `swap_ins - swap_outs = 2` while
`used_frames` changed only by 1; the claimed equality fails. -/
theorem swap_delta_ne_used_delta :
    oneFrameFinal.metrics.swap_ins - oneFrameFinal.metrics.swap_outs = 2 ∧
      usedFrames oneFrameFinal - usedFrames (VMM.init cfgOneFrame) = 1 ∧
      ¬oneFrameFinal.metrics.swap_ins - oneFrameFinal.metrics.swap_outs
          = usedFrames oneFrameFinal - usedFrames (VMM.init cfgOneFrame) := by
  decide

/-- Claim C3 (amended): for every access sequence from a fresh started
VMM, `swap_ins - swap_outs` is an upper bound on (rather than equal to)
the change in `used_frames` since the start; the fresh state has no used
frame, so `swap_outs + used_frames ≤ swap_ins` throughout. -/
theorem swap_delta_bounds_used_frames (ops : List (Int × Bool)) (cfg : Config) :
    usedFrames (VMM.init cfg) = 0 ∧
      (runAccesses ops (startSimulation (VMM.init cfg)).1).metrics.swap_outs
          + usedFrames (runAccesses ops (startSimulation (VMM.init cfg)).1)
        ≤ (runAccesses ops (startSimulation (VMM.init cfg)).1).metrics.swap_ins := by
  have hzero : usedFrames (VMM.init cfg) = 0 := countTrue_replicate_false cfg.total_frames
  refine ⟨hzero, ?_⟩
  have base : SwapInv (startSimulation (VMM.init cfg)).1 := by
    unfold SwapInv usedFrames startSimulation VMM.init
    simpa using (countTrue_replicate_false cfg.total_frames).le
  exact swapInv_runAccesses ops _ base

/-- Claim C4: `CLOCKReplacement::selectVictimFrame` returns -1 even though
a frame is occupied, whenever every occupied frame has its reference bit
set (the second sweep clears each bit but exits after one rotation without
re-examining).  Directly: one occupied frame with its bit set yields -1.
Reachable: under CLOCK with F=1, after a read of page 0 the single frame
is occupied, and the access of page 1 emits the no-victim ERROR and
installs nothing. -/
theorem clockSelectVictim_none_despite_occupied :
    (clockSelectVictim [true] [true] 0).1 = -1 ∧
      countTrue [true] = 1 ∧
      usedFrames clockWarm = 1 ∧
      (accessPage 1 false clockWarm).2.2.contains Event.errorNoVictim = true ∧
      isPageValid (accessPage 1 false clockWarm).2.1.page_table 1 = false := by
  decide

/-- Claim C5: the Belady FIFO scenario (F=3, P=8, all reads of
[1,2,3,4,1,2,5,1,2,3,4,5]) does produce 9 page faults, but the final
resident set is {2,3,5}, not the claimed {3,4,5}: `selectVictimFrame`
never removes the returned head from the FIFO queue, so frame 0 is evicted
every time. -/
theorem fifo_belady_faults_and_resident_set :
    beladyFinal.metrics.page_faults = 9 ∧
      beladyFinal.metrics.swap_ins = 9 ∧
      beladyFinal.metrics.swap_outs = 0 ∧
      (getValidPages beladyFinal.page_table).toFinset = ({2, 3, 5} : Finset Int) ∧
      (getValidPages beladyFinal.page_table).toFinset ≠ ({3, 4, 5} : Finset Int) := by
  decide

/-- Claim C6: `setConfig` does rebuild the page table and the policy and
leaves the metrics untouched (first conjunct, for every configuration and
state), but it only `resize`s the frame vectors: after a write to page 0
and a `setConfig` with the same configuration, frame 0 is still marked
occupied and dirty and still names page 0, although no page is valid. -/
theorem setConfig_keeps_metrics_but_not_frames :
    (∀ (cfg : Config) (s : VMM),
        (setConfig cfg s).metrics = s.metrics ∧
          getValidPages (setConfig cfg s).page_table = []) ∧
      resetFinal.frame_validity = [true, false] ∧
      resetFinal.frame_to_page = [0, -1] ∧
      resetFinal.frame_modified = [true, false] ∧
      getValidPages resetFinal.page_table = [] ∧
      resetFinal.metrics.total_accesses = 1 ∧
      resetFinal.metrics.page_faults = 1 ∧
      resetFinal.metrics.swap_ins = 1 := by
  refine ⟨fun cfg s => ⟨rfl, rfl⟩, ?_, ?_, ?_, ?_, ?_, ?_, ?_⟩ <;> decide

/-- Claim C7 (counterexample): page 100 is outside [0, 8) for the P=8
configuration, yet `accessPage 100` is serviced normally: it returns true,
faults, creates a page-table entry for 100 and makes it valid; no error
event is emitted. -/
theorem accessPage_out_of_range_not_skipped :
    (8 : Int) ≤ 100 ∧
      cfgTwoFrames.total_pages = 8 ∧
      (accessPage 100 false freshOutOfRange).1 = true ∧
      isPageValid (accessPage 100 false freshOutOfRange).2.1.page_table 100 = true ∧
      (ptFind (accessPage 100 false freshOutOfRange).2.1.page_table 100).isSome = true ∧
      (accessPage 100 false freshOutOfRange).2.1.metrics.page_faults = 1 ∧
      (accessPage 100 false freshOutOfRange).2.2.contains Event.errorNoVictim = false := by
  decide

/-- Claim C7 (amended): no page-number range check exists anywhere on the
access path; `accessPage` on a fresh started VMM (F=2, P=8) services EVERY
page number - including out-of-range and negative ones - identically:
it returns true, creates/mutates the page-table entry and installs the
page, with no error event. -/
theorem accessPage_services_any_page_number (p : Int) (w : Bool) :
    (accessPage p w freshOutOfRange).1 = true ∧
      isPageValid (accessPage p w freshOutOfRange).2.1.page_table p = true ∧
      Event.errorNoVictim ∉ (accessPage p w freshOutOfRange).2.2 := by
  cases w <;>
    simp [accessPage, freshOutOfRange, startSimulation, VMM.init, cfgTwoFrames,
      stepPrefetchPhase, updateRecentAccesses, handlePageFault, bumpFaults, faultBody,
      allocateFrame, findFreeFrame, findFreeFrameAux, installPage, swapIn, isPageValid,
      ptFind, ptUpdate, setPageValid, setFrameNumber, setPageModified, recordPageAccess,
      Manager.recordAccess, Manager.init, freshPolicy, fifoRecordAccess]

/-- Claim C8 (counterexample): on the window [4,5,6] (P=1024) the
rule-based predictor does not return the two-element candidate set {7,8}:
the stride-1 rule yields only 2 candidates, so the append rule fires and 9
is also returned. -/
theorem predictor_window_456_not_two_candidates :
    ((requestAIPredictions windowState).1).toFinset ≠ ({7, 8} : Finset Int) ∧
      (9 : Int) ∈ (requestAIPredictions windowState).1 := by
  decide

/-- Claim C8 (amended): on the window [4,5,6] the predictor returns
exactly [7, 8, 9] with confidence 0.85: the stride-1 pattern contributes
{7, 8} and, since that is fewer than 3 candidates, `(p3+3) mod P = 9` is
appended. -/
theorem predictor_window_456_full_result :
    (predictFromWindow [4, 5, 6] 1024).1 = [7, 8, 9] ∧
      (requestAIPredictions windowState).1 = [7, 8, 9] ∧
      (requestAIPredictions windowState).2.1.ai_prediction_confidence = 85 / 100 :=
  ⟨by decide, by decide, rfl⟩

/-- Claim C9: when the simulation is not running, `accessPage` returns
false, leaves the entire state (metrics, page table, frames, window,
predictions, policy) unchanged and emits no event. -/
theorem accessPage_stopped_no_side_effects (p : Int) (w : Bool) (s : VMM)
    (h : s.simulation_running = false) :
    accessPage p w s = (false, s, []) := by
  simp [accessPage, h]

/-- Witness for C9 at a concrete stopped state. -/
theorem accessPage_stopped_no_side_effects_witness :
    accessPage 3 true (VMM.init cfgTwoFrames) = (false, VMM.init cfgTwoFrames, []) :=
  accessPage_stopped_no_side_effects 3 true (VMM.init cfgTwoFrames) rfl

/-- Claim C10: both derived rates are total at a zero denominator:
`getPageFaultRate` is 0 whenever `total_accesses = 0` and `getAIHitRate`
is 0 whenever `ai_predictions = 0`, for every metrics state. -/
theorem rates_zero_on_zero_denominator (m : Metrics) :
    (m.total_accesses = 0 → getPageFaultRate m = 0) ∧
      (m.ai_predictions = 0 → getAIHitRate m = 0) := by
  constructor <;> intro h <;> simp [getPageFaultRate, getAIHitRate, h]

/-- Witness for C10 at the all-zero metrics state. -/
theorem rates_zero_on_zero_denominator_witness :
    getPageFaultRate {} = 0 ∧ getAIHitRate {} = 0 :=
  ⟨(rates_zero_on_zero_denominator {}).1 rfl, (rates_zero_on_zero_denominator {}).2 rfl⟩

end VMMModel
